import Mathlib

/-
  Verification of the quiz application (quiz.py): shallow embedding of the
  data-access layer (DatabaseHandler), the answer-validation engine
  (Question) and the scoring component (Player), together with theorems
  settling the specification claims.

  Modelling conventions:
  * the sqlite store is a `DBState`: each table is `Option (List row)`,
    `none` meaning the table does not exist (a query on it raises
    sqlite3.OperationalError);
  * rows are kept in rowid order, which is the order SELECT without
    ORDER BY returns them in;
  * Python exceptions are the `PyExc` type; fallible operations return
    `Except PyExc _`;
  * raw user input is a `List Char`; Python's `str.upper` is modelled
    per character by `Char.toUpper` (they agree on ASCII, and only the
    A-Z survivors of the subsequent filter matter);
  * `random.shuffle` makes `get_answers` nondeterministic, so the shuffled
    order is a parameter; the claims below are stated against an already
    fixed ("already shuffled") answer order.
-/

set_option linter.unusedVariables false

deriving instance DecidableEq for Except

namespace Quiz

/-- Python exceptions that the quiz code can raise. -/
inductive PyExc
  | valueError (msg : String)
  | typeErrorNotSubscriptable
  | typeErrorTooManyArgs
  | typeErrorBadOperand
  | operationalError
deriving DecidableEq

/-- A row of the `questions` table (id INTEGER PRIMARY KEY, questiontext TEXT). -/
structure QuestionRow where
  id : Nat
  questiontext : String
deriving DecidableEq

/-- A row of the `answers` table (id, questionid, answertext, correct). -/
structure AnswerRow where
  id : Nat
  questionid : Nat
  answertext : String
  correct : Int
deriving DecidableEq

/-- A row of the `players` table (id INTEGER PRIMARY KEY, name TEXT, score INTEGER). -/
structure PlayerRec where
  id : Nat
  name : String
  score : Int
deriving DecidableEq

/-- The sqlite store: three tables, each possibly missing (`none`). -/
structure DBState where
  questions : Option (List QuestionRow)
  answers : Option (List AnswerRow)
  players : Option (List PlayerRec)
deriving DecidableEq

namespace DatabaseHandler

/-- `get_question`: `SELECT questiontext FROM questions WHERE id=?` then
`fetchone()[0]`.  `fetchone()` yields the first matching row or `None`;
subscripting `None` raises a TypeError. -/
def get_question (db : DBState) (questionid : Nat) : Except PyExc String :=
  match db.questions with
  | none => .error .operationalError
  | some qs =>
    match qs.filter (fun r => r.id == questionid) with
    | [] => .error .typeErrorNotSubscriptable
    | r :: _ => .ok r.questiontext

/-- `get_question_count`: `SELECT count(*) FROM questions`. -/
def get_question_count (db : DBState) : Except PyExc Nat :=
  match db.questions with
  | none => .error .operationalError
  | some qs => .ok qs.length

/-- `get_score`: `SELECT score FROM players WHERE id=?` then `fetchone()[0]`. -/
def get_score (db : DBState) (playerid : Nat) : Except PyExc Int :=
  match db.players with
  | none => .error .operationalError
  | some ps =>
    match ps.filter (fun r => r.id == playerid) with
    | [] => .error .typeErrorNotSubscriptable
    | r :: _ => .ok r.score

/-- `set_score`: `UPDATE players SET score = ? WHERE id = ?` followed by a commit. -/
def set_score (db : DBState) (playerid : Nat) (score : Int) : Except PyExc DBState :=
  match db.players with
  | none => .error .operationalError
  | some ps =>
    let updated := ps.map (fun r => if r.id = playerid then { r with score := score } else r)
    .ok { db with players := some updated }

/-- The rowid sqlite assigns to a fresh row of an INTEGER PRIMARY KEY table:
one more than the largest existing rowid (1 on an empty table). -/
def next_rowid (ps : List PlayerRec) : Nat :=
  (ps.map (fun r => r.id)).foldr Nat.max 0 + 1

/-- `create_player`: `INSERT INTO players (name,score) VALUES (?,0)`, commit,
and return `lastrowid`. -/
def create_player (db : DBState) (name : String) : Except PyExc (DBState × Nat) :=
  match db.players with
  | none => .error .operationalError
  | some ps =>
    let newid := next_rowid ps
    .ok ({ db with players := some (ps ++ [⟨newid, name, 0⟩]) }, newid)

/-- `get_highscores`: `SELECT id,name,score FROM players ORDER BY id DESC, id DESC
LIMIT ?` with default argument `count=1`.  Player ids are unique (PRIMARY KEY),
so the descending-id order is modelled by a sort under `b.id ≤ a.id`. -/
def get_highscores (db : DBState) (count : Nat := 1) : Except PyExc (List PlayerRec) :=
  match db.players with
  | none => .error .operationalError
  | some ps => .ok ((ps.insertionSort (fun a b => b.id ≤ a.id)).take count)

/-- `check_db_ready`: SELECTs one row from each of the three tables inside
try/except; any missing table makes a SELECT raise, giving `False`. -/
def check_db_ready (db : DBState) : Bool :=
  db.questions.isSome && db.answers.isSome && db.players.isSome

/-- The five placeholder players inserted by `reset_db`:
`[(i, "Person "+chr(i+65), i+1) for i in range(5)]`. -/
def seed_players : List PlayerRec :=
  (List.range 5).map (fun i => ⟨i, "Person " ++ String.mk [Char.ofNat (i + 65)], (i : Int) + 1⟩)

/-- `reset_db`: drops all three tables, recreates them, bulk-inserts the seed
questions and answers read from the CSV files (parameters here, as they are
external inputs) and the five placeholder players, then commits. -/
def reset_db (db : DBState) (seed_questions : List QuestionRow)
    (seed_answers : List AnswerRow) : DBState :=
  { questions := some seed_questions
    answers := some seed_answers
    players := some seed_players }

end DatabaseHandler

/-- One entry of `Question.answers`: the `{'answertext':..., 'correct':...}`
dict produced by `DatabaseHandler.get_answers`. -/
structure Answer where
  answertext : String
  correct : Int
deriving DecidableEq

/-- A `Question` object: question text plus its (mutable, shufflable) list of
answers. -/
structure Question where
  questiontext : String
  answers : List Answer
deriving DecidableEq

namespace Question

/-- `sanitize_user_answer_to_list`: uppercase the raw response and keep only
characters of `string.ascii_uppercase`, i.e. codepoints 65 ('A') .. 90 ('Z'),
preserving order and duplicates. -/
def sanitize_user_answer_to_list (user_answer : List Char) : List Char :=
  (user_answer.map Char.toUpper).filter (fun c => 65 ≤ c.toNat && c.toNat ≤ 90)

/-- `get_correct_answer_count`: `len([x for x in self.answers if x['correct']==1])`. -/
def get_correct_answer_count (q : Question) : Nat :=
  (q.answers.filter (fun x => x.correct == 1)).length

/-- `get_answers`: `random.shuffle(self.answers)` then return the list.  The
shuffle outcome is nondeterministic, so the chosen permutation is passed in;
the object's answer list is replaced by it. -/
def get_answers (q : Question) (shuffled : List Answer) : Question × List Answer :=
  ({ q with answers := shuffled }, shuffled)

/-- The `for ans in user_answer:` loop of `check_answer`, threading the object
state: each letter is mapped to `ord(ans) - ord('A')` (ord 'A' = 65), checked
against the bounds of `self.answers` (ValueError on failure), and `False` is
returned as soon as a selected answer has `correct == 0`; falling off the end
returns `True`.  The subscript `self.answers[answer_index]` runs only after
the bounds check, so it is modelled by `getD` whose default is unreachable.
No statement in the loop assigns to the object. -/
def check_letters (q : Question) : List Char → Except PyExc Bool × Question
  | [] => (.ok true, q)
  | ans :: rest =>
    let answer_index : Int := (ans.toNat : Int) - 65
    if (q.answers.length : Int) ≤ answer_index ∨ answer_index < 0 then
      (.error (.valueError ("Invalid selection: " ++ String.mk [ans])), q)
    else if (q.answers.getD answer_index.toNat ⟨"", 0⟩).correct == 0 then
      (.ok false, q)
    else
      check_letters q rest

/-- `check_answer`: sanitize the raw response, raise ValueError on an empty
selection or a count mismatch (message pluralized on `ans_count > 1`), then run
the letter loop.  The pair's second component is the object state afterwards. -/
def check_answer (q : Question) (user_answer : List Char) : Except PyExc Bool × Question :=
  let ua := sanitize_user_answer_to_list user_answer
  let ans_count := q.get_correct_answer_count
  if ua.length = 0 then
    (.error (.valueError "No answer selected"), q)
  else if ua.length ≠ ans_count then
    (.error (.valueError ("This question has " ++ toString ans_count ++ " answer" ++
      (if ans_count > 1 then "s" else ""))), q)
  else
    check_letters q ua

end Question

/-- A `Player` object: id assigned by the store, display name, in-memory score. -/
structure Player where
  id : Nat
  name : String
  score : Int
deriving DecidableEq

namespace Player

/-- `Player.__init__`: creates the database row via `create_player` (score 0)
and records the returned id; the in-memory score starts at 0. -/
def create (db : DBState) (name : String) : Except PyExc (DBState × Player) :=
  match DatabaseHandler.create_player db name with
  | .error e => .error e
  | .ok (db1, pid) => .ok (db1, ⟨pid, name, 0⟩)

/-- `score_up(points=1)`: compute `newscore = self.score + points`, persist it
through `set_score`, then update the in-memory score. -/
def score_up (db : DBState) (p : Player) (points : Int := 1) :
    Except PyExc (DBState × Player) :=
  let newscore := p.score + points
  match DatabaseHandler.set_score db p.id newscore with
  | .error e => .error e
  | .ok db1 => .ok (db1, { p with score := newscore })

/-- A positional argument of a dynamic call to `score_up`: either an int or a
Player object. -/
inductive PyVal
  | int (n : Int)
  | player (p : Player)

/-- A dynamic call `self.score_up(*args)`.  `score_up` declares a single
optional parameter `points`, so two positional arguments raise
`TypeError: too many arguments` before the body runs; a Player object passed
as `points` would make `self.score + points` raise a TypeError inside the
body. -/
def score_up_apply (db : DBState) (p : Player) (args : List PyVal) :
    Except PyExc (DBState × Player) :=
  match args with
  | [] => score_up db p 1
  | [PyVal.int n] => score_up db p n
  | [PyVal.player _] => .error .typeErrorBadOperand
  | _ => .error .typeErrorTooManyArgs

/-- `score_down(points=1)`: the source executes `self.score_up(self, -points)`,
passing the player object itself as an extra positional argument. -/
def score_down (db : DBState) (p : Player) (points : Int := 1) :
    Except PyExc (DBState × Player) :=
  score_up_apply db p [PyVal.player p, PyVal.int (-points)]

/-- Iterated `score_up` with a list of point awards (the driver awards
`answer_count` points per correctly answered question). -/
def score_up_seq (db : DBState) (p : Player) : List Int → Except PyExc (DBState × Player)
  | [] => .ok (db, p)
  | pts :: rest =>
    match score_up db p pts with
    | .error e => .error e
    | .ok (db1, p1) => score_up_seq db1 p1 rest

end Player

/-- The descending-id comparison of the high-score query is total. -/
instance : IsTotal PlayerRec (fun a b => b.id ≤ a.id) :=
  ⟨fun a b => Nat.le_total b.id a.id⟩

/-- The descending-id comparison of the high-score query is transitive. -/
instance : IsTrans PlayerRec (fun a b => b.id ≤ a.id) :=
  ⟨fun a b c hab hbc => Nat.le_trans hbc hab⟩

/-- The scoring invariant: the store has a players table, some record carries
the player's id, and every record carrying it stores the in-memory score. -/
def score_synced (db : DBState) (p : Player) : Prop :=
  ∃ ps, db.players = some ps ∧ (∃ r ∈ ps, r.id = p.id) ∧
    ∀ r ∈ ps, r.id = p.id → r.score = p.score

/-! ### Helper lemmas -/

/-- The letter loop of `check_answer` never assigns to the question object. -/
theorem check_letters_snd (q : Question) :
    ∀ l : List Char, (Question.check_letters q l).2 = q := by
  intro l
  induction l with
  | nil => rfl
  | cons c rest ih =>
    rw [Question.check_letters]
    split
    · rfl
    · split
      · rfl
      · exact ih

/-- `check_answer` never assigns to the question object. -/
theorem check_answer_snd (q : Question) (ua : List Char) :
    (q.check_answer ua).2 = q := by
  rw [Question.check_answer]
  split
  · rfl
  · split
    · rfl
    · exact check_letters_snd q _

/-- Every character surviving sanitization lies in the ASCII range 'A'..'Z'
(codepoints 65..90). -/
theorem sanitize_mem (ua : List Char) :
    ∀ c ∈ Question.sanitize_user_answer_to_list ua, 65 ≤ c.toNat ∧ c.toNat ≤ 90 := by
  intro c hc
  rw [Question.sanitize_user_answer_to_list] at hc
  have h2 := (List.mem_filter.mp hc).2
  simpa using h2

/-- A question having an answer flagged correct has a positive correct-answer
count. -/
theorem correct_count_pos (q : Question) (h : ∃ a ∈ q.answers, a.correct = 1) :
    0 < q.get_correct_answer_count := by
  obtain ⟨a, ha, hc⟩ := h
  rw [Question.get_correct_answer_count]
  have hm : a ∈ q.answers.filter (fun x => x.correct == 1) :=
    List.mem_filter.mpr ⟨ha, by simp [hc]⟩
  exact List.length_pos.mpr (fun hnil => by simp [hnil] at hm)

/-- If every letter of the list maps to an in-bounds answer flagged correct,
the letter loop returns True. -/
theorem check_letters_all_correct (q : Question) :
    ∀ l : List Char,
    (∀ c ∈ l, 65 ≤ c.toNat ∧ c.toNat - 65 < q.answers.length ∧
      (q.answers.getD (c.toNat - 65) ⟨"", 0⟩).correct = 1) →
    Question.check_letters q l = (.ok true, q) := by
  intro l
  induction l with
  | nil => intro _; rfl
  | cons c rest ih =>
    intro h
    obtain ⟨h65, hlt, hcor⟩ := h c (List.mem_cons_self c rest)
    simp only [Question.check_letters]
    rw [if_neg (by omega),
      show ((c.toNat : Int) - 65).toNat = c.toNat - 65 from by omega,
      if_neg (by simp only [beq_iff_eq, hcor]; decide)]
    exact ih (fun x hx => h x (List.mem_cons_of_mem c hx))

/-- If every letter before `c` maps to an in-bounds answer not flagged
incorrect, and `c` maps out of bounds, the letter loop raises the
out-of-range ValueError naming `c`. -/
theorem check_letters_out_of_bounds (q : Question) :
    ∀ (pre : List Char) (c : Char) (rest : List Char),
    (∀ d ∈ pre, 65 ≤ d.toNat ∧ d.toNat - 65 < q.answers.length ∧
      (q.answers.getD (d.toNat - 65) ⟨"", 0⟩).correct ≠ 0) →
    65 ≤ c.toNat →
    q.answers.length ≤ c.toNat - 65 →
    Question.check_letters q (pre ++ c :: rest) =
      (.error (.valueError ("Invalid selection: " ++ String.mk [c])), q) := by
  intro pre
  induction pre with
  | nil =>
    intro c rest _ h65 hge
    simp only [List.nil_append, Question.check_letters]
    rw [if_pos (by omega)]
  | cons d pre ih =>
    intro c rest hpre h65 hge
    obtain ⟨hd65, hdlt, hdcor⟩ := hpre d (List.mem_cons_self d pre)
    simp only [List.cons_append, Question.check_letters]
    rw [if_neg (by omega),
      show ((d.toNat : Int) - 65).toNat = d.toNat - 65 from by omega,
      if_neg (by simp only [beq_iff_eq]; exact hdcor)]
    exact ih c rest (fun x hx => hpre x (List.mem_cons_of_mem d hx)) h65 hge

/-- The letter loop either returns a boolean or raises an out-of-range
ValueError naming one of the supplied letters; no other outcome exists. -/
theorem check_letters_cases (q : Question) :
    ∀ l : List Char,
    (∃ b, Question.check_letters q l = (.ok b, q)) ∨
    ∃ c ∈ l, Question.check_letters q l =
      (.error (.valueError ("Invalid selection: " ++ String.mk [c])), q) := by
  intro l
  induction l with
  | nil => exact .inl ⟨true, rfl⟩
  | cons c rest ih =>
    simp only [Question.check_letters]
    split
    · exact .inr ⟨c, List.mem_cons_self c rest, rfl⟩
    · split
      · exact .inl ⟨false, rfl⟩
      · rcases ih with ⟨b, hb⟩ | ⟨d, hd, hde⟩
        · exact .inl ⟨b, hb⟩
        · exact .inr ⟨d, List.mem_cons_of_mem c hd, hde⟩

/-- A synced player's stored score, fetched by get_score, equals the
in-memory score. -/
theorem get_score_of_synced (db : DBState) (p : Player) (h : score_synced db p) :
    DatabaseHandler.get_score db p.id = .ok p.score := by
  obtain ⟨ps, hps, ⟨r0, hr0, hr0id⟩, hall⟩ := h
  have hg : DatabaseHandler.get_score db p.id =
      (match ps.filter (fun r => r.id == p.id) with
       | [] => .error .typeErrorNotSubscriptable
       | r :: _ => .ok r.score) := by
    simp only [DatabaseHandler.get_score, hps]
  rw [hg]
  cases hfil : ps.filter (fun r => r.id == p.id) with
  | nil =>
    exfalso
    have hm : r0 ∈ ps.filter (fun r => r.id == p.id) :=
      List.mem_filter.mpr ⟨hr0, by simp [hr0id]⟩
    rw [hfil] at hm
    exact List.not_mem_nil r0 hm
  | cons r t =>
    have hrm : r ∈ ps.filter (fun x => x.id == p.id) := by
      rw [hfil]; exact List.mem_cons_self r t
    have h2 := List.mem_filter.mp hrm
    show Except.ok r.score = Except.ok p.score
    rw [hall r h2.1 (eq_of_beq h2.2)]

/-- One successful score_up adds the points to the in-memory score, persists
the same total, and preserves the sync invariant. -/
theorem score_up_synced (db : DBState) (p : Player) (pts : Int) (h : score_synced db p) :
    ∃ db1, Player.score_up db p pts = .ok (db1, ⟨p.id, p.name, p.score + pts⟩) ∧
      score_synced db1 ⟨p.id, p.name, p.score + pts⟩ := by
  obtain ⟨ps, hps, ⟨r0, hr0, hr0id⟩, hall⟩ := h
  refine ⟨{ db with players := some (ps.map (fun r =>
      if r.id = p.id then { r with score := p.score + pts } else r)) }, ?_, ?_⟩
  · simp only [Player.score_up, DatabaseHandler.set_score, hps]
  · refine ⟨_, rfl, ?_, ?_⟩
    · refine ⟨(if r0.id = p.id then { r0 with score := p.score + pts } else r0),
        List.mem_map_of_mem _ hr0, ?_⟩
      rw [if_pos hr0id]
      exact hr0id
    · intro r hr hid
      obtain ⟨s, hs, hfs⟩ := List.mem_map.mp hr
      by_cases hsid : s.id = p.id
      · rw [if_pos hsid] at hfs
        rw [← hfs]
      · rw [if_neg hsid] at hfs
        rw [← hfs] at hid
        exact absurd hid hsid

/-- Iterated score_up succeeds from any synced state, totals the awards on
the in-memory score, and preserves the sync invariant throughout. -/
theorem score_up_seq_synced (awards : List Int) :
    ∀ (db : DBState) (p : Player), score_synced db p →
    ∃ db2 p2, Player.score_up_seq db p awards = .ok (db2, p2) ∧
      p2.id = p.id ∧ p2.name = p.name ∧ p2.score = p.score + awards.sum ∧
      score_synced db2 p2 := by
  induction awards with
  | nil =>
    intro db p h
    exact ⟨db, p, rfl, rfl, rfl, by simp, h⟩
  | cons a rest ih =>
    intro db p h
    obtain ⟨db1, hup, hsync1⟩ := score_up_synced db p a h
    obtain ⟨db2, p2, hseq, hid, hname, hscore, hsync2⟩ :=
      ih db1 ⟨p.id, p.name, p.score + a⟩ hsync1
    refine ⟨db2, p2, ?_, hid, hname, ?_, hsync2⟩
    · simp only [Player.score_up_seq, hup]
      exact hseq
    · rw [hscore, List.sum_cons]
      ring

/-- Every player id in the table is bounded by the fold computing the next
rowid. -/
theorem id_le_fold (ps : List PlayerRec) :
    ∀ r ∈ ps, r.id ≤ (ps.map (fun x => x.id)).foldr Nat.max 0 := by
  induction ps with
  | nil => intro r hr; cases hr
  | cons x xs ih =>
    intro r hr
    simp only [List.map_cons, List.foldr_cons]
    rcases List.mem_cons.mp hr with h | h
    · subst h; exact Nat.le_max_left _ _
    · exact Nat.le_trans (ih r h) (Nat.le_max_right _ _)

/-- A player freshly inserted by create_player is synced: its rowid is new,
so it is the unique record carrying that id, and both scores are 0. -/
theorem created_synced (q : Option (List QuestionRow)) (a : Option (List AnswerRow))
    (ps : List PlayerRec) (name : String) :
    score_synced ⟨q, a, some (ps ++ [⟨DatabaseHandler.next_rowid ps, name, 0⟩])⟩
      ⟨DatabaseHandler.next_rowid ps, name, 0⟩ := by
  refine ⟨_, rfl,
    ⟨⟨DatabaseHandler.next_rowid ps, name, 0⟩,
      List.mem_append_right _ (List.mem_cons_self _ _), rfl⟩, ?_⟩
  intro r hr hid
  rcases List.mem_append.mp hr with h | h
  · have hlt : r.id < DatabaseHandler.next_rowid ps := by
      have := id_le_fold ps r h
      rw [DatabaseHandler.next_rowid]
      omega
    exact absurd hid (Nat.ne_of_lt hlt)
  · rcases List.mem_cons.mp h with h2 | h2
    · rw [h2]
    · cases h2

/-! ### Claim theorems -/

/-- C7: a player created by create_player starts with in-memory and stored
score 0, and after any sequence of successful score_up calls the in-memory
score equals the stored score returned by get_score and equals the sum of all
points awarded so far (each intermediate state is the instance of this
statement at the corresponding award prefix; in particular awards 2 then 1
give stored score 2 and then 3). -/
theorem c7_score_memory_store_sync (q : Option (List QuestionRow))
    (a : Option (List AnswerRow)) (ps : List PlayerRec) (name : String)
    (awards : List Int) :
    ∃ db1 p, Player.create ⟨q, a, some ps⟩ name = .ok (db1, p) ∧
      p.score = 0 ∧ DatabaseHandler.get_score db1 p.id = .ok 0 ∧
      ∃ db2 p2, Player.score_up_seq db1 p awards = .ok (db2, p2) ∧
        p2.score = awards.sum ∧
        DatabaseHandler.get_score db2 p2.id = .ok awards.sum := by
  refine ⟨⟨q, a, some (ps ++ [⟨DatabaseHandler.next_rowid ps, name, 0⟩])⟩,
    ⟨DatabaseHandler.next_rowid ps, name, 0⟩, ?_, rfl, ?_, ?_⟩
  · simp only [Player.create, DatabaseHandler.create_player]
  · exact get_score_of_synced _ _ (created_synced q a ps name)
  · obtain ⟨db2, p2, hseq, hid, hname, hscore, hsync⟩ :=
      score_up_seq_synced awards _ _ (created_synced q a ps name)
    refine ⟨db2, p2, hseq, ?_, ?_⟩
    · rw [hscore]; simp
    · rw [get_score_of_synced db2 p2 hsync, hscore]
      simp

/-- C1: for a question with a non-empty answer list (with, per the data
model, at least one answer flagged correct) and any raw response whose
normalization has length equal to the correct-answer count and whose every
letter (duplicates permitted) maps to an in-bounds answer flagged correct,
check_answer returns true and raises no error. -/
theorem c1_all_correct_returns_true (q : Question) (ua : List Char)
    (hne : q.answers ≠ [])
    (hcor : ∃ a ∈ q.answers, a.correct = 1)
    (hlen : (Question.sanitize_user_answer_to_list ua).length = q.get_correct_answer_count)
    (hall : ∀ c ∈ Question.sanitize_user_answer_to_list ua,
      c.toNat - 65 < q.answers.length ∧
      (q.answers.getD (c.toNat - 65) ⟨"", 0⟩).correct = 1) :
    (q.check_answer ua).1 = .ok true := by
  have hpos : 0 < q.get_correct_answer_count := correct_count_pos q hcor
  have hlz : ¬(Question.sanitize_user_answer_to_list ua).length = 0 := by omega
  simp only [Question.check_answer]
  rw [if_neg hlz, if_neg (by omega),
    check_letters_all_correct q _
      (fun c hc => ⟨(sanitize_mem ua c hc).1, (hall c hc).1, (hall c hc).2⟩)]

/-- Witness for C1: the spec's example question with duplicate-free correct
response "a". -/
theorem c1_all_correct_returns_true_witness :
    (⟨"2+2=?", [⟨"4", 1⟩, ⟨"3", 0⟩, ⟨"5", 0⟩]⟩ : Question).answers ≠ [] ∧
    (∃ a ∈ (⟨"2+2=?", [⟨"4", 1⟩, ⟨"3", 0⟩, ⟨"5", 0⟩]⟩ : Question).answers, a.correct = 1) ∧
    (Question.sanitize_user_answer_to_list ['a']).length =
      Question.get_correct_answer_count ⟨"2+2=?", [⟨"4", 1⟩, ⟨"3", 0⟩, ⟨"5", 0⟩]⟩ ∧
    (∀ c ∈ Question.sanitize_user_answer_to_list ['a'],
      c.toNat - 65 < (⟨"2+2=?", [⟨"4", 1⟩, ⟨"3", 0⟩, ⟨"5", 0⟩]⟩ : Question).answers.length ∧
      ((⟨"2+2=?", [⟨"4", 1⟩, ⟨"3", 0⟩, ⟨"5", 0⟩]⟩ : Question).answers.getD
        (c.toNat - 65) ⟨"", 0⟩).correct = 1) ∧
    (Question.check_answer ⟨"2+2=?", [⟨"4", 1⟩, ⟨"3", 0⟩, ⟨"5", 0⟩]⟩ ['a']).1 = .ok true :=
  ⟨by decide, by decide, by decide, by decide,
    c1_all_correct_returns_true ⟨"2+2=?", [⟨"4", 1⟩, ⟨"3", 0⟩, ⟨"5", 0⟩]⟩ ['a']
      (by decide) (by decide) (by decide) (by decide)⟩

/-- C2 as stated is false: with answers [correct, incorrect, correct]
(correct-answer count 2) and response "bd", the normalization "BD" is
non-empty, has the correct length, and contains the letter 'D' whose index 3
is out of bounds, yet check_answer returns false instead of raising: the loop
returns False at the earlier in-bounds incorrect letter 'B' before reaching
'D'. -/
theorem c2_out_of_range_counterexample :
    Question.sanitize_user_answer_to_list ['b', 'd'] = ['B', 'D'] ∧
    (Question.sanitize_user_answer_to_list ['b', 'd']).length =
      Question.get_correct_answer_count ⟨"", [⟨"x", 1⟩, ⟨"y", 0⟩, ⟨"z", 1⟩]⟩ ∧
    (⟨"", [⟨"x", 1⟩, ⟨"y", 0⟩, ⟨"z", 1⟩]⟩ : Question).answers.length ≤ 'D'.toNat - 65 ∧
    (Question.check_answer ⟨"", [⟨"x", 1⟩, ⟨"y", 0⟩, ⟨"z", 1⟩]⟩ ['b', 'd']).1 =
      .ok false := by
  refine ⟨by decide, by decide, by decide, by decide⟩

/-- C2 amended: if additionally every letter preceding the first out-of-bounds
letter maps to an in-bounds answer that is not flagged incorrect, check_answer
raises the ValueError naming that out-of-bounds letter. -/
theorem c2_out_of_range_raises (q : Question) (ua pre rest : List Char) (c : Char)
    (hsplit : Question.sanitize_user_answer_to_list ua = pre ++ c :: rest)
    (hlen : (Question.sanitize_user_answer_to_list ua).length = q.get_correct_answer_count)
    (hpre : ∀ d ∈ pre, d.toNat - 65 < q.answers.length ∧
      (q.answers.getD (d.toNat - 65) ⟨"", 0⟩).correct ≠ 0)
    (hc : q.answers.length ≤ c.toNat - 65) :
    (q.check_answer ua).1 = .error (.valueError ("Invalid selection: " ++ String.mk [c])) := by
  have hcm : c ∈ Question.sanitize_user_answer_to_list ua := by
    rw [hsplit]; exact List.mem_append_right pre (List.mem_cons_self c rest)
  have h65 : 65 ≤ c.toNat := (sanitize_mem ua c hcm).1
  have hlz : ¬(Question.sanitize_user_answer_to_list ua).length = 0 := by
    rw [hsplit]; simp
  simp only [Question.check_answer]
  rw [if_neg hlz, if_neg (by omega), hsplit,
    check_letters_out_of_bounds q pre c rest
      (fun d hd => ⟨(sanitize_mem ua d (by rw [hsplit]; exact List.mem_append_left _ hd)).1,
        (hpre d hd).1, (hpre d hd).2⟩) h65 hc]

/-- Witness for the amended C2: one answer, response "b", index 1 out of
bounds. -/
theorem c2_out_of_range_raises_witness :
    Question.sanitize_user_answer_to_list ['b'] = [] ++ 'B' :: [] ∧
    (Question.sanitize_user_answer_to_list ['b']).length =
      Question.get_correct_answer_count ⟨"", [⟨"x", 1⟩]⟩ ∧
    (∀ d ∈ ([] : List Char), d.toNat - 65 <
      (⟨"", [⟨"x", 1⟩]⟩ : Question).answers.length ∧
      ((⟨"", [⟨"x", 1⟩]⟩ : Question).answers.getD (d.toNat - 65) ⟨"", 0⟩).correct ≠ 0) ∧
    (⟨"", [⟨"x", 1⟩]⟩ : Question).answers.length ≤ 'B'.toNat - 65 ∧
    (Question.check_answer ⟨"", [⟨"x", 1⟩]⟩ ['b']).1 =
      .error (.valueError ("Invalid selection: " ++ String.mk ['B'])) :=
  ⟨by decide, by decide, by decide, by decide,
    c2_out_of_range_raises ⟨"", [⟨"x", 1⟩]⟩ ['b'] [] [] 'B'
      (by decide) (by decide) (by decide) (by decide)⟩

/-- C3 as stated is false: an out-of-range letter also raises the invalid-
input ValueError even though the normalized length (1) equals the
correct-answer count (1), so "raises exactly when the length differs" fails;
moreover the empty-selection message is capitalized "No answer selected". -/
theorem c3_length_mismatch_counterexample :
    (Question.sanitize_user_answer_to_list ['b']).length =
      Question.get_correct_answer_count ⟨"", [⟨"x", 1⟩]⟩ ∧
    (Question.check_answer ⟨"", [⟨"x", 1⟩]⟩ ['b']).1 =
      .error (.valueError "Invalid selection: B") := by
  refine ⟨by decide, by decide⟩

/-- C3 amended: the length-phase errors occur exactly when the normalized
length differs from the correct-answer count N: "No answer selected"
(capitalized) for an empty normalization, otherwise "This question has N
answer(s)" pluralized on N > 1; when the length matches, check_answer either
returns a boolean or raises only an out-of-range error naming a supplied
letter. -/
theorem c3_invalid_input_errors (q : Question) (ua : List Char) :
    (Question.sanitize_user_answer_to_list ua = [] →
      (q.check_answer ua).1 = .error (.valueError "No answer selected")) ∧
    (Question.sanitize_user_answer_to_list ua ≠ [] →
      (Question.sanitize_user_answer_to_list ua).length ≠ q.get_correct_answer_count →
      (q.check_answer ua).1 = .error (.valueError ("This question has " ++
        toString q.get_correct_answer_count ++ " answer" ++
        (if q.get_correct_answer_count > 1 then "s" else "")))) ∧
    ((Question.sanitize_user_answer_to_list ua).length = q.get_correct_answer_count →
      Question.sanitize_user_answer_to_list ua ≠ [] →
      (∃ b, (q.check_answer ua).1 = .ok b) ∨
      ∃ c ∈ Question.sanitize_user_answer_to_list ua,
        (q.check_answer ua).1 = .error (.valueError ("Invalid selection: " ++ String.mk [c]))) := by
  refine ⟨?_, ?_, ?_⟩
  · intro h
    simp only [Question.check_answer]
    rw [if_pos (by rw [h]; rfl)]
  · intro hne hlen
    simp only [Question.check_answer]
    rw [if_neg (fun h0 => hne (List.length_eq_zero.mp h0)), if_pos hlen]
  · intro hlen hne
    simp only [Question.check_answer]
    rw [if_neg (fun h0 => hne (List.length_eq_zero.mp h0)), if_neg (by omega)]
    rcases check_letters_cases q (Question.sanitize_user_answer_to_list ua) with
      ⟨b, hb⟩ | ⟨d, hd, hde⟩
    · exact .inl ⟨b, by rw [hb]⟩
    · exact .inr ⟨d, hd, by rw [hde]⟩

/-- Witness for the amended C3: empty response gives "No answer selected". -/
theorem c3_invalid_input_errors_witness :
    Question.sanitize_user_answer_to_list [] = [] ∧
    (Question.check_answer ⟨"", [⟨"x", 1⟩]⟩ []).1 =
      .error (.valueError "No answer selected") :=
  ⟨by decide, (c3_invalid_input_errors ⟨"", [⟨"x", 1⟩]⟩ []).1 (by decide)⟩

/-- C9: check_answer does not modify the question's answer list or any other
state, so against a fixed (already-shuffled) answer order, a repeated call to
check_answer with the same response operates on an identical object and
produces the identical outcome (same boolean result or same error). -/
theorem c9_check_answer_pure (q : Question) (ua : List Char) :
    (q.check_answer ua).2 = q ∧
    Question.check_answer ((q.check_answer ua).2) ua = q.check_answer ua := by
  refine ⟨check_answer_snd q ua, ?_⟩
  rw [check_answer_snd q ua]

/-- C5: for every store state, player object and points argument, score_down
raises a TypeError (the source passes the player object itself as an extra
positional argument to score_up, exceeding score_up's arity) before any
mutation: no updated store or player is ever produced. -/
theorem c5_score_down_raises (db : DBState) (p : Player) (points : Int) :
    Player.score_down db p points = .error .typeErrorTooManyArgs := rfl

/-- C8: regardless of the prior store state, after reset_db the store is
ready, the questions and answers tables hold exactly the seed rows, and the
players table holds exactly the five placeholder players with ids 0..4,
names "Person A".."Person E" and ascending scores 1..5. -/
theorem c8_reset_db (db : DBState) (sq : List QuestionRow) (sa : List AnswerRow) :
    DatabaseHandler.check_db_ready (DatabaseHandler.reset_db db sq sa) = true ∧
    (DatabaseHandler.reset_db db sq sa).questions = some sq ∧
    (DatabaseHandler.reset_db db sq sa).answers = some sa ∧
    (DatabaseHandler.reset_db db sq sa).players = some
      [⟨0, "Person A", 1⟩, ⟨1, "Person B", 2⟩, ⟨2, "Person C", 3⟩,
       ⟨3, "Person D", 4⟩, ⟨4, "Person E", 5⟩] :=
  ⟨rfl, rfl, rfl, rfl⟩

/-- C10: called without an explicit limit, get_highscores defaults the limit
to 1, so the driver's end-of-session high-score table has at most one entry. -/
theorem c10_default_limit (db : DBState) :
    DatabaseHandler.get_highscores db = DatabaseHandler.get_highscores db 1 ∧
    ∀ (ps : List PlayerRec) (hs : List PlayerRec),
      db.players = some ps →
      DatabaseHandler.get_highscores db = .ok hs →
      hs.length ≤ 1 := by
  refine ⟨rfl, ?_⟩
  intro ps hs hps hok
  rw [DatabaseHandler.get_highscores, hps] at hok
  simp only [Except.ok.injEq] at hok
  subst hok
  exact List.length_take_le 1 _

/-- C4: for every limit and every store whose player ids are distinct (they
are the PRIMARY KEY), get_highscores returns at most `limit` entries sorted by
strictly descending player id, irrespective of scores; in particular, with
players 0..4 present, get_highscores 3 returns ids 4, 3, 2 for any scores. -/
theorem c4_highscores_by_descending_id :
    (∀ (db : DBState) (ps : List PlayerRec) (count : Nat),
      db.players = some ps →
      ps.Pairwise (fun a b => a.id ≠ b.id) →
      ∃ hs, DatabaseHandler.get_highscores db count = .ok hs ∧
        hs.length ≤ count ∧ hs.Pairwise (fun a b => b.id < a.id)) ∧
    (∀ (n0 n1 n2 n3 n4 : String) (s0 s1 s2 s3 s4 : Int),
      DatabaseHandler.get_highscores ⟨none, none, some
        [⟨0, n0, s0⟩, ⟨1, n1, s1⟩, ⟨2, n2, s2⟩, ⟨3, n3, s3⟩, ⟨4, n4, s4⟩]⟩ 3 =
        .ok [⟨4, n4, s4⟩, ⟨3, n3, s3⟩, ⟨2, n2, s2⟩]) := by
  constructor
  · intro db ps count hps hdist
    refine ⟨(ps.insertionSort (fun a b => b.id ≤ a.id)).take count, ?_,
      List.length_take_le _ _, ?_⟩
    · simp only [DatabaseHandler.get_highscores, hps]
    · have hsorted : (ps.insertionSort (fun a b => b.id ≤ a.id)).Pairwise
          (fun a b => b.id ≤ a.id) := List.sorted_insertionSort _ ps
      have hne : (ps.insertionSort (fun a b => b.id ≤ a.id)).Pairwise
          (fun a b => a.id ≠ b.id) :=
        ((List.perm_insertionSort _ ps).pairwise_iff (fun h => Ne.symm h)).mpr hdist
      have hlt := (hsorted.and hne).imp
        (fun hab => Nat.lt_of_le_of_ne hab.1 (Ne.symm hab.2))
      exact List.Pairwise.sublist (List.take_sublist _ _) hlt
  · intro n0 n1 n2 n3 n4 s0 s1 s2 s3 s4
    rfl

/-- Witness for C4 at a concrete store with scores out of id order. -/
theorem c4_highscores_by_descending_id_witness :
    (⟨none, none, some [⟨0, "a", 9⟩, ⟨1, "b", 7⟩, ⟨2, "c", 100⟩]⟩ : DBState).players =
        some [⟨0, "a", 9⟩, ⟨1, "b", 7⟩, ⟨2, "c", 100⟩] ∧
    List.Pairwise (fun a b => a.id ≠ b.id)
        [(⟨0, "a", 9⟩ : PlayerRec), ⟨1, "b", 7⟩, ⟨2, "c", 100⟩] ∧
    ∃ hs, DatabaseHandler.get_highscores
        ⟨none, none, some [⟨0, "a", 9⟩, ⟨1, "b", 7⟩, ⟨2, "c", 100⟩]⟩ 2 = .ok hs ∧
      hs.length ≤ 2 ∧ hs.Pairwise (fun a b => b.id < a.id) :=
  ⟨rfl, by decide,
    c4_highscores_by_descending_id.1
      ⟨none, none, some [⟨0, "a", 9⟩, ⟨1, "b", 7⟩, ⟨2, "c", 100⟩]⟩
      [⟨0, "a", 9⟩, ⟨1, "b", 7⟩, ⟨2, "c", 100⟩] 2 rfl (by decide)⟩

/-- C6: with the tables present, get_question and get_score fail exactly when
no record matches the requested identifier, and the error raised on that path
is always the same record-missing failure (subscripting the empty fetch
result), never an unrelated one; when a record matches, a value is returned. -/
theorem c6_lookup_missing_record (db : DBState) (qs : List QuestionRow)
    (ps : List PlayerRec) (qid pid : Nat)
    (hq : db.questions = some qs) (hp : db.players = some ps) :
    (DatabaseHandler.get_question db qid = .error .typeErrorNotSubscriptable ↔
      ∀ r ∈ qs, r.id ≠ qid) ∧
    (DatabaseHandler.get_score db pid = .error .typeErrorNotSubscriptable ↔
      ∀ r ∈ ps, r.id ≠ pid) ∧
    (∀ e, DatabaseHandler.get_question db qid = .error e →
      e = .typeErrorNotSubscriptable) ∧
    (∀ e, DatabaseHandler.get_score db pid = .error e →
      e = .typeErrorNotSubscriptable) := by
  have hq1 : DatabaseHandler.get_question db qid =
      (match qs.filter (fun r => r.id == qid) with
       | [] => .error .typeErrorNotSubscriptable
       | r :: _ => .ok r.questiontext) := by
    simp only [DatabaseHandler.get_question, hq]
  have hp1 : DatabaseHandler.get_score db pid =
      (match ps.filter (fun r => r.id == pid) with
       | [] => .error .typeErrorNotSubscriptable
       | r :: _ => .ok r.score) := by
    simp only [DatabaseHandler.get_score, hp]
  refine ⟨?_, ?_, ?_, ?_⟩
  · rw [hq1]
    cases hfil : qs.filter (fun r => r.id == qid) with
    | nil =>
      constructor
      · intro _ r hr hid
        have hrn : r ∉ qs.filter (fun x => x.id == qid) := by
          rw [hfil]; exact List.not_mem_nil r
        exact hrn (List.mem_filter.mpr ⟨hr, by simp [hid]⟩)
      · intro _; rfl
    | cons r t =>
      constructor
      · intro h; cases h
      · intro hall
        have hrmem : r ∈ qs.filter (fun x => x.id == qid) := by
          rw [hfil]; exact List.mem_cons_self r t
        have h2 := List.mem_filter.mp hrmem
        exact absurd (eq_of_beq h2.2) (hall r h2.1)
  · rw [hp1]
    cases hfil : ps.filter (fun r => r.id == pid) with
    | nil =>
      constructor
      · intro _ r hr hid
        have hrn : r ∉ ps.filter (fun x => x.id == pid) := by
          rw [hfil]; exact List.not_mem_nil r
        exact hrn (List.mem_filter.mpr ⟨hr, by simp [hid]⟩)
      · intro _; rfl
    | cons r t =>
      constructor
      · intro h; cases h
      · intro hall
        have hrmem : r ∈ ps.filter (fun x => x.id == pid) := by
          rw [hfil]; exact List.mem_cons_self r t
        have h2 := List.mem_filter.mp hrmem
        exact absurd (eq_of_beq h2.2) (hall r h2.1)
  · intro e he
    rw [hq1] at he
    cases hfil : qs.filter (fun r => r.id == qid) with
    | nil => rw [hfil] at he; cases he; rfl
    | cons r t => rw [hfil] at he; cases he
  · intro e he
    rw [hp1] at he
    cases hfil : ps.filter (fun r => r.id == pid) with
    | nil => rw [hfil] at he; cases he; rfl
    | cons r t => rw [hfil] at he; cases he

/-- Witness for C6 at a store with one question and one player, querying
identifiers with no matching record. -/
theorem c6_lookup_missing_record_witness :
    (⟨some [⟨0, "q0"⟩], none, some [⟨0, "p0", 5⟩]⟩ : DBState).questions =
        some [⟨0, "q0"⟩] ∧
    (⟨some [⟨0, "q0"⟩], none, some [⟨0, "p0", 5⟩]⟩ : DBState).players =
        some [⟨0, "p0", 5⟩] ∧
    ((DatabaseHandler.get_question ⟨some [⟨0, "q0"⟩], none, some [⟨0, "p0", 5⟩]⟩ 7 =
        .error .typeErrorNotSubscriptable ↔
      ∀ r ∈ [(⟨0, "q0"⟩ : QuestionRow)], r.id ≠ 7) ∧
    (DatabaseHandler.get_score ⟨some [⟨0, "q0"⟩], none, some [⟨0, "p0", 5⟩]⟩ 9 =
        .error .typeErrorNotSubscriptable ↔
      ∀ r ∈ [(⟨0, "p0", 5⟩ : PlayerRec)], r.id ≠ 9) ∧
    (∀ e, DatabaseHandler.get_question ⟨some [⟨0, "q0"⟩], none, some [⟨0, "p0", 5⟩]⟩ 7 =
        .error e → e = .typeErrorNotSubscriptable) ∧
    (∀ e, DatabaseHandler.get_score ⟨some [⟨0, "q0"⟩], none, some [⟨0, "p0", 5⟩]⟩ 9 =
        .error e → e = .typeErrorNotSubscriptable)) :=
  ⟨rfl, rfl,
    c6_lookup_missing_record ⟨some [⟨0, "q0"⟩], none, some [⟨0, "p0", 5⟩]⟩
      [⟨0, "q0"⟩] [⟨0, "p0", 5⟩] 7 9 rfl rfl⟩

/-- Witness for C10 at a concrete store. -/
theorem c10_default_limit_witness :
    (⟨none, none, some [⟨0, "a", 9⟩, ⟨1, "b", 7⟩]⟩ : DBState).players =
        some [⟨0, "a", 9⟩, ⟨1, "b", 7⟩] ∧
    DatabaseHandler.get_highscores ⟨none, none, some [⟨0, "a", 9⟩, ⟨1, "b", 7⟩]⟩ =
        .ok [⟨1, "b", 7⟩] ∧
    ([(⟨1, "b", 7⟩ : PlayerRec)]).length ≤ 1 :=
  ⟨rfl, by decide,
    (c10_default_limit ⟨none, none, some [⟨0, "a", 9⟩, ⟨1, "b", 7⟩]⟩).2
      [⟨0, "a", 9⟩, ⟨1, "b", 7⟩] [⟨1, "b", 7⟩] rfl (by decide)⟩

end Quiz
